import Mathlib

/-!
Formal model of the browser-side client in src/Frontend/js/chat.js of the
Law-chat-bot repository, shallowly embedded in Lean 4.

Conventions used throughout:
* Timestamps are naturals (milliseconds since the epoch); the source calls
  new Date().toISOString(), an injective monotone encoding of that value,
  so ordering and equality of timestamps are preserved by the model.
* Browser local storage is modelled per key; JSON.stringify on the values
  the program writes always yields text that JSON.parse maps back to the
  same value, so serialization is modelled structurally, with an extra
  constructor for corrupt (unparseable) stored text.
* DOM reads are modelled as explicit fields of a state record; fetch
  outcomes are explicit parameters consumed only when the code actually
  issues a request.
-/

namespace LawChat

/-- A chat message as pushed by ChatInterface.addMessage:
{ role, content, timestamp: new Date().toISOString() }. -/
structure Message where
  role : String
  content : String
  timestamp : Nat
deriving DecidableEq, Repr

/-- The (role, content) projection of a message, the part C1 compares. -/
def roleContent (m : Message) : String × String :=
  (m.role, m.content)

/-- Contents of the chat_history local-storage key: missing, valid JSON
text that parses back to a message list, or corrupt (unparseable) text.
The only writer in the program is saveChatHistory, which stores
JSON.stringify(this.messages), hence always a valid list. -/
inductive StoredVal where
  | absent : StoredVal
  | valid : List Message → StoredVal
  | corrupt : StoredVal
deriving DecidableEq, Repr

/-- State touched by ChatInterface.addMessage / saveChatHistory /
loadChatHistory (the later definitions, lines 740-772, which are the ones
a ChatInterface instance dispatches to): whether
document.querySelector of the chat-messages class finds a container, the
rendered children of that container, the in-memory transcript
this.messages, and the chat_history storage key. -/
structure ChatState where
  domPresent : Bool
  domChildren : List (String × String)
  messages : List Message
  stored : StoredVal
deriving DecidableEq, Repr

/-- saveChatHistory: localStorage.setItem of chat_history with
JSON.stringify(this.messages). -/
def saveChatHistory (s : ChatState) : ChatState :=
  { s with stored := StoredVal.valid s.messages }

/-- addMessage(role, content) at wall-clock time now: returns immediately
when the chat-messages container is absent; otherwise appends a rendered
child, pushes { role, content, timestamp: new Date().toISOString() } onto
this.messages and calls saveChatHistory. -/
def addMessage (now : Nat) (role content : String) (s : ChatState) : ChatState :=
  if s.domPresent then
    saveChatHistory
      { s with
        domChildren := s.domChildren ++ [(role, content)],
        messages := s.messages ++ [⟨role, content, now⟩] }
  else s

/-- loadChatHistory (the effective, later definition): reads chat_history;
if present, tries JSON.parse and assigns the result to this.messages, then
iterates this.messages.forEach(msg => this.addMessage(msg.role, msg.content)).
Array.prototype.forEach captures the length before the first callback, so
the iteration visits exactly the parsed messages even though addMessage
appends to the same array; the fold below reflects that. A parse failure
is caught (console.error only), which is the corrupt branch; the absent
branch skips the body. now is the wall-clock time of the load. -/
def loadChatHistory (now : Nat) (s : ChatState) : ChatState :=
  match s.stored with
  | StoredVal.absent => s
  | StoredVal.corrupt => s
  | StoredVal.valid msgs =>
      List.foldl (fun st m => addMessage now m.role m.content st)
        { s with messages := msgs } msgs

/-- The ChatState a fresh ChatInterface constructor sets up before calling
loadChatHistory: this.messages = [] and the given DOM/storage environment. -/
def initialChatState (domPresent : Bool) (stored : StoredVal) : ChatState :=
  { domPresent := domPresent, domChildren := [], messages := [], stored := stored }

/-- this.generateSessionId(): 'session_' + Math.random().toString(36).substr(2, 9);
rand stands for the random suffix. -/
def generateSessionId (rand : String) : String :=
  "session_" ++ rand

/-- The chat_session_id local-storage key. -/
structure SessionStore where
  sessionId : Option String
deriving DecidableEq, Repr

/-- The constructor line
this.sessionId = localStorage.getItem('chat_session_id') || this.generateSessionId():
getItem yields null when the key is unset; JS || falls through to
generateSessionId exactly when the stored value is falsy (null or the
empty string), and generateSessionId persists the fresh id via setItem. -/
def constructorSessionId (store : SessionStore) (rand : String) :
    String × SessionStore :=
  match store.sessionId with
  | some s =>
      if s = "" then
        (generateSessionId rand, { sessionId := some (generateSessionId rand) })
      else
        (s, store)
  | none =>
      (generateSessionId rand, { sessionId := some (generateSessionId rand) })

theorem generateSessionId_ne_empty (rand : String) : generateSessionId rand ≠ "" := by
  intro h
  have hlen := congrArg String.length h
  simp [generateSessionId, String.length_append] at hlen
  exact absurd hlen.1 (by decide)

/-- C10: addMessage with the chat-messages container absent changes nothing:
no message is appended to the in-memory transcript and storage is untouched. -/
theorem addMessage_absent_frame (now : Nat) (role content : String)
    (s : ChatState) (h : s.domPresent = false) :
    addMessage now role content s = s := by
  simp [addMessage, h]

/-- Witness for C10 at a concrete state. -/
theorem addMessage_absent_frame_witness :
    (initialChatState false StoredVal.absent).domPresent = false ∧
      addMessage 5 "user" "hello" (initialChatState false StoredVal.absent) =
        initialChatState false StoredVal.absent :=
  ⟨rfl, addMessage_absent_frame 5 "user" "hello" _ rfl⟩

/-- C1 is violated by the code: starting from empty storage with the
chat container present, appending a single message, persisting it (done by
addMessage itself) and reloading leaves the in-memory transcript holding the
message twice: loadChatHistory assigns the parsed array to this.messages and
then calls addMessage for each parsed entry, which pushes a second, freshly
re-stamped copy. The (role, content) sequence after the round trip is
[(user, hi), (user, hi)], not the appended [(user, hi)]. -/
theorem loadChatHistory_duplicates_transcript :
    (addMessage 100 "user" "hi" (initialChatState true StoredVal.absent)).messages.map roleContent
        = [("user", "hi")] ∧
    (loadChatHistory 200 (addMessage 100 "user" "hi" (initialChatState true StoredVal.absent))).messages
        = [⟨"user", "hi", 100⟩, ⟨"user", "hi", 200⟩] ∧
    (loadChatHistory 200 (addMessage 100 "user" "hi" (initialChatState true StoredVal.absent))).messages.map roleContent
        ≠ [("user", "hi")] := by
  refine ⟨rfl, rfl, ?_⟩
  decide

/-- C2 as stated is violated: with corrupt text under the chat_history key,
the effective loadChatHistory (lines 762-772) catches the parse error but
does not remove the corrupted entry; localStorage.removeItem appears only in
the dead, shadowed earlier definition (lines 544-556), which moreover
targets the different key chatHistory. After the call the entry is still
corrupt, not absent. -/
theorem loadChatHistory_corrupt_keeps_entry :
    (loadChatHistory 0 (initialChatState true StoredVal.corrupt)).stored
        = StoredVal.corrupt ∧
      StoredVal.corrupt ≠ StoredVal.absent := by
  exact ⟨rfl, by decide⟩

/-- C2 amended: on a corrupt chat_history entry, loadChatHistory does not
throw (the parse failure is caught and the function is the identity on the
state) and the in-memory transcript stays empty as it is at page load; the
corrupted entry, however, remains in storage. -/
theorem loadChatHistory_corrupt_noop (now : Nat) (s : ChatState)
    (h : s.stored = StoredVal.corrupt) :
    loadChatHistory now s = s ∧ (s.messages = [] → (loadChatHistory now s).messages = []) := by
  constructor
  · simp [loadChatHistory, h]
  · intro hm
    simp [loadChatHistory, h, hm]

/-- Witness for the amended C2 at a concrete corrupt state. -/
theorem loadChatHistory_corrupt_noop_witness :
    (initialChatState true StoredVal.corrupt).stored = StoredVal.corrupt ∧
      loadChatHistory 7 (initialChatState true StoredVal.corrupt)
          = initialChatState true StoredVal.corrupt :=
  ⟨rfl, (loadChatHistory_corrupt_noop 7 (initialChatState true StoredVal.corrupt) rfl).1⟩

/-- C8: the constructor reuses a stored session id unchanged (ids persisted
by the program are generateSessionId results, never empty, so the JS ||
does not discard them), hence two successive page loads without clearing
storage yield the same sessionId; and when no id is stored,
generateSessionId produces the id and persists it. -/
theorem constructorSessionId_stable (store : SessionStore) (rand rand2 : String)
    (hne : ∀ s, store.sessionId = some s → s ≠ "") :
    (constructorSessionId (constructorSessionId store rand).2 rand2).1
        = (constructorSessionId store rand).1 ∧
    (∀ s, store.sessionId = some s →
        (constructorSessionId store rand).1 = s ∧
        (constructorSessionId store rand).2 = store) ∧
    (store.sessionId = none →
        (constructorSessionId store rand).1 = generateSessionId rand ∧
        (constructorSessionId store rand).2.sessionId = some (generateSessionId rand)) := by
  match hstore : store.sessionId with
  | some s =>
      have hs : s ≠ "" := hne s hstore
      refine ⟨?_, ?_, ?_⟩
      · simp [constructorSessionId, hstore, hs]
      · intro t ht
        cases ht
        constructor
        · simp [constructorSessionId, hstore, hs]
        · simp [constructorSessionId, hstore, hs]
      · intro h
        simp at h
  | none =>
      refine ⟨?_, ?_, ?_⟩
      · simp [constructorSessionId, hstore, generateSessionId_ne_empty rand]
      · intro t ht
        simp at ht
      · intro _
        simp [constructorSessionId, hstore]

/-- Witness for C8: a stored id is reused across two loads, and a fresh
profile generates and persists one. -/
theorem constructorSessionId_stable_witness :
    (∀ s, (SessionStore.mk (some "session_abc")).sessionId = some s → s ≠ "") ∧
    (constructorSessionId (constructorSessionId (SessionStore.mk (some "session_abc")) "r1").2 "r2").1
        = (constructorSessionId (SessionStore.mk (some "session_abc")) "r1").1 := by
  have h : ∀ s, (SessionStore.mk (some "session_abc")).sessionId = some s → s ≠ "" := by
    intro s hs
    cases hs
    decide
  exact ⟨h, (constructorSessionId_stable (SessionStore.mk (some "session_abc")) "r1" "r2" h).1⟩

/-! ## Backend availability polling (checkApiAvailability / fetchWithCache) -/

/-- A JavaScript value as far as this.apiAvailable is concerned: the code
assigns it response.ok where response is the JSON body returned by
fetchWithCache, so the value is undefined whenever the body has no ok
property, and the body's boolean otherwise. -/
inductive JsVal where
  | undef : JsVal
  | bool : Bool → JsVal
deriving DecidableEq, Repr

/-- The parsed JSON body of the health endpoint: okField is the value of
its ok property when the body carries a boolean one, none when the
property is missing. -/
structure HealthBody where
  okField : Option Bool
deriving DecidableEq, Repr

/-- Outcome of an actual network fetch of the health URL: a successful
response whose JSON body parsed to the given value, or a network error
(fetch rejected). Consulted only when a request is really issued. -/
inductive FetchOutcome where
  | ok : HealthBody → FetchOutcome
  | err : FetchOutcome
deriving DecidableEq, Repr

/-- this.apiCheckInterval, set to 30000 ms in the constructor. -/
def apiCheckInterval : Nat := 30000

/-- Reading response.ok off a parsed body: JsVal.undef when absent. -/
def jsOfOkField : Option Bool → JsVal
  | some b => JsVal.bool b
  | none => JsVal.undef

/-- The ChatInterface fields touched by checkApiAvailability:
this.lastApiCheck, the fetchWithCache cache entry for the health URL, and
this.apiAvailable. -/
structure ApiState where
  lastApiCheck : Nat
  cache : Option HealthBody
  apiAvailable : JsVal
deriving DecidableEq, Repr

/-- Constructor values: lastApiCheck = 0, empty cache, apiAvailable = false. -/
def initialApiState : ApiState :=
  { lastApiCheck := 0, cache := none, apiAvailable := JsVal.bool false }

/-- checkApiAvailability at wall-clock time now. The source returns early
when now - lastApiCheck < interval and lastApiCheck is not 0; otherwise it
sets lastApiCheck = now and awaits fetchWithCache on the health URL, which
serves the cached body without any network request when the URL was fetched
successfully before, and otherwise issues the request (outcome tells how the
network behaved) and caches a successful body forever. On success the code
assigns this.apiAvailable = response.ok, the ok property of the parsed
body; a thrown network error is caught and sets the flag to false. JS
computes now - lastApiCheck over the integers; truncated Nat subtraction
takes the same branch, since when now < lastApiCheck both the negative JS
difference and the Nat value 0 are below the interval. The second result
component records whether a health network request was issued. -/
def checkApiAvailability (s : ApiState) (now : Nat) (outcome : FetchOutcome) :
    ApiState × Bool :=
  if now - s.lastApiCheck < apiCheckInterval ∧ s.lastApiCheck ≠ 0 then
    (s, false)
  else
    match s.cache with
    | some body =>
        ({ s with lastApiCheck := now, apiAvailable := jsOfOkField body.okField }, false)
    | none =>
        match outcome with
        | FetchOutcome.ok body =>
            ({ lastApiCheck := now, cache := some body,
               apiAvailable := jsOfOkField body.okField }, true)
        | FetchOutcome.err =>
            ({ s with lastApiCheck := now, apiAvailable := JsVal.bool false }, true)

/-- A sequence of checkApiAvailability invocations, each with its start
time and the network behaviour it would observe; returns the final state
and, per invocation, whether it issued a health request. -/
def runChecks (s : ApiState) : List (Nat × FetchOutcome) → ApiState × List Bool
  | [] => (s, [])
  | (t, o) :: rest =>
      let r := checkApiAvailability s t o
      let rr := runChecks r.1 rest
      (rr.1, r.2 :: rr.2)

/-- C5 as stated is violated: with the backend unreachable, an invocation at
t=10 issues a request (and fails), an invocation at t=30009 is suppressed by
the interval gate, and an invocation at t=30011 — only 2 ms after the
previous one — passes the gate (measured against lastApiCheck, which the
suppressed call did not advance) and issues a second request. The pair
(30009, 30011) is separated by far less than the interval, yet the second
of the pair issues a health request. -/
theorem checkApi_pair_within_interval_requests :
    (runChecks initialApiState
        [(10, FetchOutcome.err), (30009, FetchOutcome.err), (30011, FetchOutcome.err)]).2
      = [true, false, true] ∧ 30011 - 30009 < apiCheckInterval := by
  constructor
  · rfl
  · decide

/-- Helper: from a state whose lastApiCheck is nonzero, every invocation
whose start time is still within the interval of lastApiCheck returns
early: no request is issued and the state is unchanged. -/
theorem runChecks_all_recent_no_request (calls : List (Nat × FetchOutcome))
    (s : ApiState) (hL : s.lastApiCheck ≠ 0)
    (hall : ∀ c ∈ calls, c.1 < s.lastApiCheck + apiCheckInterval) :
    (runChecks s calls).2 = List.replicate calls.length false ∧
      (runChecks s calls).1 = s := by
  induction calls with
  | nil => exact ⟨rfl, rfl⟩
  | cons c rest ih =>
      obtain ⟨t, o⟩ := c
      have hlt : t < s.lastApiCheck + apiCheckInterval := hall (t, o) (List.mem_cons_self _ _)
      have hpos : 0 < apiCheckInterval := by decide
      have hsub : t - s.lastApiCheck < apiCheckInterval := by omega
      have hstep : checkApiAvailability s t o = (s, false) := by
        simp [checkApiAvailability, hsub, hL]
      have hrest := ih (fun c hc => hall c (List.mem_cons_of_mem _ hc))
      simp only [runChecks, hstep]
      exact ⟨by simp [hrest.1, List.replicate_succ], hrest.2⟩

/-- Helper: an invocation that issues a request advances lastApiCheck to
its own start time. -/
theorem checkApi_issued_sets_last (s : ApiState) (now : Nat) (o : FetchOutcome)
    (h : (checkApiAvailability s now o).2 = true) :
    (checkApiAvailability s now o).1.lastApiCheck = now := by
  unfold checkApiAvailability at *
  by_cases hcond : now - s.lastApiCheck < apiCheckInterval ∧ s.lastApiCheck ≠ 0
  · simp [hcond] at h
  · cases hc : s.cache with
    | some body => simp [hcond, hc] at h
    | none =>
        cases o with
        | ok body => simp [hcond, hc]
        | err => simp [hcond, hc]

/-- C5 amended: measured from a request rather than from an arbitrary
invocation, the throttle holds — after an invocation at positive time t
that issued a health request, every subsequent invocation whose start time
is within the polling interval of t issues no request (so two issued
health requests are always at least the interval apart). -/
theorem checkApi_no_request_within_interval_of_request
    (s : ApiState) (t : Nat) (o : FetchOutcome) (calls : List (Nat × FetchOutcome))
    (ht : 0 < t) (hall : ∀ c ∈ calls, c.1 < t + apiCheckInterval)
    (hiss : (checkApiAvailability s t o).2 = true) :
    (runChecks (checkApiAvailability s t o).1 calls).2
      = List.replicate calls.length false := by
  have hlast := checkApi_issued_sets_last s t o hiss
  have hL : (checkApiAvailability s t o).1.lastApiCheck ≠ 0 := by omega
  have hall2 : ∀ c ∈ calls,
      c.1 < (checkApiAvailability s t o).1.lastApiCheck + apiCheckInterval := by
    intro c hc
    rw [hlast]
    exact hall c hc
  exact (runChecks_all_recent_no_request calls _ hL hall2).1

/-- Witness for the amended C5: a failed request at t=5 suppresses a
request from an invocation at t=6. -/
theorem checkApi_no_request_within_interval_witness :
    (0 < 5 ∧ (∀ c ∈ [((6 : Nat), FetchOutcome.err)], c.1 < 5 + apiCheckInterval) ∧
        (checkApiAvailability initialApiState 5 FetchOutcome.err).2 = true) ∧
      (runChecks (checkApiAvailability initialApiState 5 FetchOutcome.err).1
          [(6, FetchOutcome.err)]).2 = List.replicate 1 false := by
  refine ⟨⟨by decide, by decide, by decide⟩, ?_⟩
  exact checkApi_no_request_within_interval_of_request initialApiState 5 FetchOutcome.err
    [(6, FetchOutcome.err)] (by decide) (by decide) (by decide)

/-- C6 is violated by the code: checkApiAvailability assigns
this.apiAvailable = response.ok where response is the PARSED JSON BODY
returned by fetchWithCache, not the fetch Response object. A perfectly
healthy backend whose health body is, say, a status object without an ok
property makes the flag undefined — not a boolean and in particular not
true — right after a successful response. -/
theorem apiAvailable_not_boolean_after_success :
    (checkApiAvailability initialApiState 1000 (FetchOutcome.ok ⟨none⟩)).2 = true ∧
    (checkApiAvailability initialApiState 1000 (FetchOutcome.ok ⟨none⟩)).1.apiAvailable
        = JsVal.undef ∧
    ∀ b : Bool,
      (checkApiAvailability initialApiState 1000 (FetchOutcome.ok ⟨none⟩)).1.apiAvailable
        ≠ JsVal.bool b := by
  refine ⟨rfl, rfl, ?_⟩
  intro b
  cases b <;> decide

/-! ## Conversation-summary history (updateChatHistory, chatHistory key) -/

/-- One rendered message element inside the chatMessages container, as
updateChatHistory reads it back from the DOM: whether it carries the user
class, its message-content HTML and its message-timestamp text. -/
structure DomMsg where
  isUser : Bool
  content : String
  timestamp : String
deriving DecidableEq, Repr

/-- The per-message record updateChatHistory builds from a DOM element:
{ sender, content, timestamp }. -/
structure SummaryMsg where
  sender : String
  content : String
  timestamp : String
deriving DecidableEq, Repr

/-- One conversation summary stored in this.chatHistory and under the
chatHistory storage key: { id, title, messages, lastUpdated }. lastUpdated
is written as new Date().toISOString(), modelled as the millisecond value. -/
structure ChatSummary where
  id : String
  title : String
  msgs : List SummaryMsg
  lastUpdated : Nat
deriving DecidableEq, Repr

/-- The sort comparator (a, b) => new Date(b.lastUpdated) - new Date(a.lastUpdated):
a precedes b exactly when a is at least as recent. -/
def recentFirst (a b : ChatSummary) : Prop :=
  b.lastUpdated ≤ a.lastUpdated

instance : DecidableRel recentFirst := fun _ _ => Nat.decLe _ _

instance : IsTotal ChatSummary recentFirst :=
  ⟨fun a b => Nat.le_total b.lastUpdated a.lastUpdated⟩

instance : IsTrans ChatSummary recentFirst :=
  ⟨fun _ _ _ hab hbc => Nat.le_trans hbc hab⟩

/-- State touched by updateChatHistory: the chatMessages container children
(none when the container is absent), the currentChatTitle text, the current
chat id, the in-memory this.chatHistory and the chatHistory storage key. -/
structure HistoryState where
  domMessages : Option (List DomMsg)
  chatTitle : Option String
  currentChatId : String
  chatHistory : List ChatSummary
  storedChatHistory : Option (List ChatSummary)
deriving DecidableEq, Repr

/-- msg => ({ sender: user/assistant, content, timestamp }). -/
def domToSummaryMsg (d : DomMsg) : SummaryMsg :=
  { sender := if d.isUser then "user" else "assistant",
    content := d.content, timestamp := d.timestamp }

/-- The replacement/new entry built by updateChatHistory at time now. -/
def summaryEntry (now : Nat) (s : HistoryState) (doms : List DomMsg) : ChatSummary :=
  { id := s.currentChatId, title := s.chatTitle.getD "New Chat",
    msgs := doms.map domToSummaryMsg, lastUpdated := now }

/-- this.chatHistory after the findIndex-based replace-or-push step. -/
def historyPool (now : Nat) (s : HistoryState) (doms : List DomMsg) : List ChatSummary :=
  match s.chatHistory.findIdx? (fun c => c.id == s.currentChatId) with
  | some i => s.chatHistory.set i (summaryEntry now s doms)
  | none => s.chatHistory ++ [summaryEntry now s doms]

/-- .sort(most recent first).slice(0, 20). Array.prototype.sort is a
stable sort by the comparator; stable insertion sort on recentFirst
computes the same list. -/
def keepRecent (pool : List ChatSummary) : List ChatSummary :=
  (pool.insertionSort recentFirst).take 20

/-- updateChatHistory at time now: returns untouched when the chatMessages
container is absent or holds at most one rendered message; otherwise
replaces or appends the summary for the current chat, sorts the list most
recent first, truncates it to 20 entries, stores the result under the
chatHistory key and keeps it in memory. -/
def updateChatHistory (now : Nat) (s : HistoryState) : HistoryState :=
  match s.domMessages with
  | none => s
  | some doms =>
      if (doms.map domToSummaryMsg).length ≤ 1 then s
      else
        let hist2 := keepRecent (historyPool now s doms)
        { s with chatHistory := hist2, storedChatHistory := some hist2 }

/-- The invariant the claim asserts of the persisted list: at most 20
entries, ordered most recent first. -/
def CappedSorted (l : List ChatSummary) : Prop :=
  l.length ≤ 20 ∧ l.Pairwise (fun a b => b.lastUpdated ≤ a.lastUpdated)

theorem keepRecent_cappedSorted (pool : List ChatSummary) :
    CappedSorted (keepRecent pool) := by
  constructor
  · exact List.length_take_le 20 (pool.insertionSort recentFirst)
  · have hsorted : (pool.insertionSort recentFirst).Pairwise recentFirst :=
      List.sorted_insertionSort recentFirst pool
    have hsub : List.Sublist (keepRecent pool) (pool.insertionSort recentFirst) :=
      List.take_sublist _ _
    exact (hsorted.sublist hsub).imp (fun h => h)

theorem keepRecent_split (pool : List ChatSummary) :
    ∃ dropped, List.Perm (keepRecent pool ++ dropped) pool ∧
      ∀ a ∈ keepRecent pool, ∀ b ∈ dropped, b.lastUpdated ≤ a.lastUpdated := by
  refine ⟨(pool.insertionSort recentFirst).drop 20, ?_, ?_⟩
  · have happ : keepRecent pool ++ (pool.insertionSort recentFirst).drop 20
        = pool.insertionSort recentFirst := List.take_append_drop _ _
    rw [happ]
    exact List.perm_insertionSort recentFirst pool
  · have hsorted : (pool.insertionSort recentFirst).Pairwise recentFirst :=
      List.sorted_insertionSort recentFirst pool
    have happ : keepRecent pool ++ (pool.insertionSort recentFirst).drop 20
        = pool.insertionSort recentFirst := List.take_append_drop _ _
    rw [← happ] at hsorted
    have hsplit := (List.pairwise_append.mp hsorted).2.2
    exact fun a ha b hb => hsplit a ha b hb

/-- C7: after every updateChatHistory call the persisted
conversation-summary list stays capped at 20 entries ordered most recent
first (first conjunct: the invariant is preserved through both the no-op
branches and the write branch), and on the write branch the persisted list
is exactly the 20-entry most-recent-first truncation of the updated pool:
every kept entry is at least as recent as every dropped one. -/
theorem updateChatHistory_capped (now : Nat) (s : HistoryState) :
    ((∀ l, s.storedChatHistory = some l → CappedSorted l) →
      ∀ l, (updateChatHistory now s).storedChatHistory = some l → CappedSorted l) ∧
    (∀ doms, s.domMessages = some doms → 1 < doms.length →
      (updateChatHistory now s).storedChatHistory
          = some (keepRecent (historyPool now s doms)) ∧
        CappedSorted (keepRecent (historyPool now s doms)) ∧
        ∃ dropped,
          List.Perm (keepRecent (historyPool now s doms) ++ dropped) (historyPool now s doms) ∧
          ∀ a ∈ keepRecent (historyPool now s doms), ∀ b ∈ dropped,
            b.lastUpdated ≤ a.lastUpdated) := by
  constructor
  · intro hpre l hpost
    match hdom : s.domMessages with
    | none =>
        simp only [updateChatHistory, hdom] at hpost
        exact hpre l hpost
    | some doms =>
        by_cases hlen : (doms.map domToSummaryMsg).length ≤ 1
        · simp only [updateChatHistory, hdom, if_pos hlen] at hpost
          exact hpre l hpost
        · simp only [updateChatHistory, hdom, if_neg hlen] at hpost
          simp only [Option.some.injEq] at hpost
          rw [← hpost]
          exact keepRecent_cappedSorted _
  · intro doms hdom hlen
    have hlen2 : ¬ (doms.map domToSummaryMsg).length ≤ 1 := by
      simp only [List.length_map]
      omega
    refine ⟨?_, keepRecent_cappedSorted _, keepRecent_split _⟩
    simp only [updateChatHistory, hdom, if_neg hlen2]

/-- Concrete rendered messages for the C7 witness. -/
def witnessDoms : List DomMsg :=
  [⟨false, "w", "t0"⟩, ⟨true, "q", "t1"⟩]

/-- Concrete history state for the C7 witness: three prior summaries, a
current chat matching none of them, two rendered messages. -/
def witnessHistoryState : HistoryState :=
  { domMessages := some witnessDoms,
    chatTitle := some "T",
    currentChatId := "c9",
    chatHistory :=
      [⟨"c1", "a", [], 100⟩, ⟨"c2", "b", [], 300⟩, ⟨"c3", "c", [], 200⟩],
    storedChatHistory := some [⟨"c2", "b", [], 300⟩] }

/-- Witness for C7 at the concrete state. -/
theorem updateChatHistory_capped_witness :
    witnessHistoryState.domMessages = some witnessDoms ∧
    1 < witnessDoms.length ∧
    (updateChatHistory 400 witnessHistoryState).storedChatHistory
      = some (keepRecent (historyPool 400 witnessHistoryState witnessDoms)) ∧
    keepRecent (historyPool 400 witnessHistoryState witnessDoms)
      = [⟨"c9", "T", witnessDoms.map domToSummaryMsg, 400⟩,
         ⟨"c2", "b", [], 300⟩, ⟨"c3", "c", [], 200⟩, ⟨"c1", "a", [], 100⟩] := by
  refine ⟨rfl, by decide, ?_, by decide⟩
  exact ((updateChatHistory_capped 400 witnessHistoryState).2 witnessDoms rfl (by decide)).1

/-! ## Document generation and analysis (DocumentProcessor)

The triggering controls (analyze-document, generate-document) exist, since
the handlers run as their click listeners; the model therefore keeps their
loading/disabled flags as plain fields. Elements that the source
dereferences without a null guard (the result containers and the
main-card error anchor) are modelled by presence flags: an access while
absent throws a TypeError, which the model propagates exactly where the
source would. -/

/-- One entry of the parameter table in getTemplateParameters:
{ id, label, type }. -/
structure TemplateParam where
  id : String
  label : String
  fieldType : String
deriving DecidableEq, Repr

/-- DocumentProcessor.getTemplateParameters: the literal table, with
parameters[templateKey] || [] for unknown keys. -/
def getTemplateParameters (templateKey : String) : List TemplateParam :=
  if templateKey = "nda" then
    [⟨"party1", "First Party Name", "text"⟩,
     ⟨"party2", "Second Party Name", "text"⟩,
     ⟨"confidentiality_period", "Confidentiality Period (months)", "number"⟩,
     ⟨"purpose", "Purpose of Agreement", "text"⟩]
  else if templateKey = "contract" then
    [⟨"party1", "First Party Name", "text"⟩,
     ⟨"party2", "Second Party Name", "text"⟩,
     ⟨"service_description", "Service Description", "text"⟩,
     ⟨"payment_amount", "Payment Amount", "number"⟩,
     ⟨"payment_terms", "Payment Terms", "text"⟩]
  else if templateKey = "will" then
    [⟨"testator_name", "Testator Name", "text"⟩,
     ⟨"executor_name", "Executor Name", "text"⟩,
     ⟨"beneficiaries", "Beneficiaries (comma-separated)", "text"⟩,
     ⟨"assets", "Assets to Distribute", "text"⟩]
  else []

/-- Body of the POST to /document/generate. -/
structure GenRequestBody where
  template_key : String
  jurisdiction : String
  language : String
  parameters : List (String × String)
deriving DecidableEq, Repr

/-- Body of the POST to /document/analyze. -/
structure AnalyzeRequestBody where
  document_text : String
  document_type : String
  jurisdiction : String
  language : String
deriving DecidableEq, Repr

/-- A network request issued by the handlers: the generation request, the
analysis request, or the audio-version request offerAudioVersion sends
after a successful display. -/
inductive NetRequest where
  | generate : GenRequestBody → NetRequest
  | analyze : AnalyzeRequestBody → NetRequest
  | audio : String → NetRequest
deriving DecidableEq, Repr

/-- The generation requests among a request list. -/
def genRequests (l : List NetRequest) : List GenRequestBody :=
  l.filterMap (fun r =>
    match r with
    | NetRequest.generate b => some b
    | _ => none)

/-- DOM and processor state read by handleDocumentGeneration: the three
select/input values, the values of the template parameter inputs keyed by
element id (updateTemplateForm creates one input per parameter), the
loading state of the generate-document button, presence of the
generated-document container and of the main-card error anchor, and
this.currentLanguage. -/
structure GenDom where
  templateSelect : String
  jurisdictionField : String
  docLanguage : String
  fieldValues : List (String × String)
  genButtonLoading : Bool
  genButtonDisabled : Bool
  resultContainerPresent : Bool
  mainCardPresent : Bool
  currentLanguage : String
deriving DecidableEq, Repr

/-- document.getElementById(id).value for a parameter input. -/
def getFieldValue (dom : GenDom) (id : String) : String :=
  ((dom.fieldValues.find? (fun p => p.1 == id)).map Prod.snd).getD ""

/-- The message of the Error thrown for an empty parameter field
(translations are unset, so the template-literal fallback is used). -/
def pleaseFillIn (label : String) : String :=
  "Please fill in " ++ label

/-- Outcome of the generation fetch round trip (fetch plus response.json),
consulted only when the request is issued. -/
inductive GenOutcome where
  | ok : String → GenOutcome
  | err : String → GenOutcome
deriving DecidableEq, Repr

/-- Observable effects of one handleDocumentGeneration run: requests
issued in order, error banners shown via showError, the exception escaping
the handler if any, and the final loading state of the triggering
button. -/
structure GenEffects where
  requests : List NetRequest
  errorsShown : List String
  thrown : Option String
  genButtonLoading : Bool
  genButtonDisabled : Bool
deriving DecidableEq, Repr

/-- handleDocumentGeneration. Control flow of the source: an empty
template or jurisdiction shows a validation banner and returns (no
request); then the parameter loop reads each input and THROWS an Error at
the first empty value — outside the try, so nothing catches it, no banner
is shown and no loading state has been set yet; otherwise the try block
sets the loading state, issues the one generation request, on success
renders the document (throws a TypeError when the container is missing,
caught by the catch) and offers the audio version (a further request,
errors swallowed), on failure the catch shows a banner (showError itself
throws when main-card is missing), and the finally clears the loading
state on every path. -/
def handleDocumentGeneration (dom : GenDom) (outcome : GenOutcome) : GenEffects :=
  if dom.templateSelect = "" ∨ dom.jurisdictionField = "" then
    if dom.mainCardPresent then
      { requests := [], errorsShown := ["Please select a template and specify jurisdiction"],
        thrown := none,
        genButtonLoading := dom.genButtonLoading, genButtonDisabled := dom.genButtonDisabled }
    else
      { requests := [], errorsShown := [], thrown := some "TypeError",
        genButtonLoading := dom.genButtonLoading, genButtonDisabled := dom.genButtonDisabled }
  else
    match (getTemplateParameters dom.templateSelect).find?
        (fun p => getFieldValue dom p.id == "") with
    | some p =>
        { requests := [], errorsShown := [], thrown := some (pleaseFillIn p.label),
          genButtonLoading := dom.genButtonLoading, genButtonDisabled := dom.genButtonDisabled }
    | none =>
        let parameters := (getTemplateParameters dom.templateSelect).map
          (fun p => (p.id, getFieldValue dom p.id))
        let req := NetRequest.generate
          { template_key := dom.templateSelect,
            jurisdiction := dom.jurisdictionField,
            language := if dom.docLanguage = "" then dom.currentLanguage else dom.docLanguage,
            parameters := parameters }
        match outcome with
        | GenOutcome.ok docText =>
            if dom.resultContainerPresent then
              { requests := [req, NetRequest.audio docText], errorsShown := [],
                thrown := none, genButtonLoading := false, genButtonDisabled := false }
            else if dom.mainCardPresent then
              { requests := [req],
                errorsShown := ["Error generating document: TypeError"],
                thrown := none, genButtonLoading := false, genButtonDisabled := false }
            else
              { requests := [req], errorsShown := [], thrown := some "TypeError",
                genButtonLoading := false, genButtonDisabled := false }
        | GenOutcome.err msg =>
            if dom.mainCardPresent then
              { requests := [req], errorsShown := ["Error generating document: " ++ msg],
                thrown := none, genButtonLoading := false, genButtonDisabled := false }
            else
              { requests := [req], errorsShown := [], thrown := some "TypeError",
                genButtonLoading := false, genButtonDisabled := false }

/-- Concrete DOM for the C3 counterexample: NDA selected, jurisdiction
set, three of the four parameter fields filled, purpose left empty. -/
def ndaDomEmptyPurpose : GenDom :=
  { templateSelect := "nda", jurisdictionField := "us", docLanguage := "en",
    fieldValues :=
      [("party1", "Acme"), ("party2", "Bob"),
       ("confidentiality_period", "12"), ("purpose", "")],
    genButtonLoading := false, genButtonDisabled := false,
    resultContainerPresent := true, mainCardPresent := true,
    currentLanguage := "en" }

/-- C3 as stated is violated on the empty-field branch: with the NDA
template selected and only the purpose field empty, the handler issues no
network request — but it shows no validation message either. The parameter
loop throws an Error (message: Please fill in Purpose of Agreement) outside
the try/catch, so the click handler ends in an unhandled promise rejection
and showError is never called. -/
theorem handleDocumentGeneration_empty_field_throws :
    (handleDocumentGeneration ndaDomEmptyPurpose (GenOutcome.ok "doc")).requests = [] ∧
    (handleDocumentGeneration ndaDomEmptyPurpose (GenOutcome.ok "doc")).errorsShown = [] ∧
    (handleDocumentGeneration ndaDomEmptyPurpose (GenOutcome.ok "doc")).thrown
      = some "Please fill in Purpose of Agreement" := by
  refine ⟨rfl, rfl, ?_⟩
  decide

/-- C3 amended: with the NDA template selected and a non-empty
jurisdiction field (the handler validates jurisdiction before the
parameters), filling all four parameter fields issues exactly one
generation request, whose body carries template_key nda and the four
values keyed by their field ids, whatever the network outcome; leaving
one of the four empty (the first empty one in table order being p) issues
zero network requests and makes the handler throw the fill-in error for p
instead of showing a validation banner. -/
theorem handleDocumentGeneration_nda (dom : GenDom) (outcome : GenOutcome)
    (hkey : dom.templateSelect = "nda") (hjur : dom.jurisdictionField ≠ "") :
    ((∀ p ∈ getTemplateParameters "nda", getFieldValue dom p.id ≠ "") →
      genRequests (handleDocumentGeneration dom outcome).requests
        = [{ template_key := "nda",
             jurisdiction := dom.jurisdictionField,
             language := if dom.docLanguage = "" then dom.currentLanguage else dom.docLanguage,
             parameters :=
               [("party1", getFieldValue dom "party1"),
                ("party2", getFieldValue dom "party2"),
                ("confidentiality_period", getFieldValue dom "confidentiality_period"),
                ("purpose", getFieldValue dom "purpose")] }]) ∧
    (∀ p, (getTemplateParameters "nda").find? (fun q => getFieldValue dom q.id == "") = some p →
      (handleDocumentGeneration dom outcome).requests = [] ∧
      (handleDocumentGeneration dom outcome).errorsShown = [] ∧
      (handleDocumentGeneration dom outcome).thrown = some (pleaseFillIn p.label)) := by
  have hcond : ¬ (dom.templateSelect = "" ∨ dom.jurisdictionField = "") := by
    rw [hkey]
    simp [hjur]
  constructor
  · intro hfull
    have hnone : (getTemplateParameters dom.templateSelect).find?
        (fun p => getFieldValue dom p.id == "") = none := by
      rw [hkey]
      rw [List.find?_eq_none]
      intro p hp
      have := hfull p hp
      simp [this]
    rw [handleDocumentGeneration, if_neg hcond, hnone]
    cases outcome with
    | ok docText =>
        by_cases hrc : dom.resultContainerPresent = true
        · simp [hrc, genRequests, hkey, getTemplateParameters]
        · by_cases hmc : dom.mainCardPresent = true
          · simp [hrc, hmc, genRequests, hkey, getTemplateParameters]
          · simp [hrc, hmc, genRequests, hkey, getTemplateParameters]
    | err msg =>
        by_cases hmc : dom.mainCardPresent = true
        · simp [hmc, genRequests, hkey, getTemplateParameters]
        · simp [hmc, genRequests, hkey, getTemplateParameters]
  · intro p hp
    have hp2 : (getTemplateParameters dom.templateSelect).find?
        (fun q => getFieldValue dom q.id == "") = some p := by
      rw [hkey]
      exact hp
    rw [handleDocumentGeneration, if_neg hcond, hp2]
    exact ⟨rfl, rfl, rfl⟩

/-- Concrete DOM for the C3 witness: all four NDA fields filled. -/
def ndaDomFull : GenDom :=
  { templateSelect := "nda", jurisdictionField := "us", docLanguage := "",
    fieldValues :=
      [("party1", "Acme"), ("party2", "Bob"),
       ("confidentiality_period", "12"), ("purpose", "R and D")],
    genButtonLoading := false, genButtonDisabled := false,
    resultContainerPresent := true, mainCardPresent := true,
    currentLanguage := "en" }

/-- Witness for the amended C3: the filled NDA form issues exactly the one
generation request with template_key nda and the four field values. -/
theorem handleDocumentGeneration_nda_witness :
    (ndaDomFull.templateSelect = "nda" ∧ ndaDomFull.jurisdictionField ≠ "" ∧
      (∀ p ∈ getTemplateParameters "nda", getFieldValue ndaDomFull p.id ≠ "")) ∧
    genRequests (handleDocumentGeneration ndaDomFull (GenOutcome.ok "doc")).requests
      = [{ template_key := "nda", jurisdiction := "us", language := "en",
           parameters :=
             [("party1", "Acme"), ("party2", "Bob"),
              ("confidentiality_period", "12"), ("purpose", "R and D")] }] := by
  refine ⟨⟨rfl, by decide, by decide⟩, ?_⟩
  have h := (handleDocumentGeneration_nda ndaDomFull (GenOutcome.ok "doc") rfl
    (by decide)).1 (by decide)
  rw [h]
  decide

/-- DOM and processor state read by handleDocumentAnalysis: the four form
values, the loading state of the analyze-document button, presence of the
analysis-result container and the main-card anchor, and the processor's
current jurisdiction/language fallbacks. -/
structure AnaDom where
  documentText : String
  documentType : String
  docJurisdiction : String
  docLanguage : String
  anaButtonLoading : Bool
  anaButtonDisabled : Bool
  resultContainerPresent : Bool
  mainCardPresent : Bool
  currentJurisdiction : String
  currentLanguage : String
deriving DecidableEq, Repr

/-- Outcome of the analysis fetch round trip: a response whose summary is
the given text, or a failure. -/
inductive AnaOutcome where
  | ok : String → AnaOutcome
  | err : String → AnaOutcome
deriving DecidableEq, Repr

/-- Observable effects of one handleDocumentAnalysis run. -/
structure AnaEffects where
  requests : List NetRequest
  errorsShown : List String
  thrown : Option String
  anaButtonLoading : Bool
  anaButtonDisabled : Bool
deriving DecidableEq, Repr

/-- handleDocumentAnalysis: an all-whitespace document shows a validation
banner and returns without touching the loading state; otherwise the try
block sets the loading state, issues the one analysis request, on success
renders the analysis (displayAnalysis dereferences the analysis-result
container without a guard, so a missing container throws into the catch)
and offers the audio version, on failure the catch shows a banner, and the
finally clears the loading state on every path. -/
def handleDocumentAnalysis (dom : AnaDom) (outcome : AnaOutcome) : AnaEffects :=
  if dom.documentText.trim = "" then
    if dom.mainCardPresent then
      { requests := [], errorsShown := ["Please enter or upload a document to analyze"],
        thrown := none,
        anaButtonLoading := dom.anaButtonLoading, anaButtonDisabled := dom.anaButtonDisabled }
    else
      { requests := [], errorsShown := [], thrown := some "TypeError",
        anaButtonLoading := dom.anaButtonLoading, anaButtonDisabled := dom.anaButtonDisabled }
  else
    let req := NetRequest.analyze
      { document_text := dom.documentText,
        document_type := dom.documentType,
        jurisdiction :=
          if dom.docJurisdiction = "" then dom.currentJurisdiction else dom.docJurisdiction,
        language := if dom.docLanguage = "" then dom.currentLanguage else dom.docLanguage }
    match outcome with
    | AnaOutcome.ok summary =>
        if dom.resultContainerPresent then
          { requests := [req, NetRequest.audio summary], errorsShown := [],
            thrown := none, anaButtonLoading := false, anaButtonDisabled := false }
        else if dom.mainCardPresent then
          { requests := [req],
            errorsShown := ["Error analyzing document: TypeError"],
            thrown := none, anaButtonLoading := false, anaButtonDisabled := false }
        else
          { requests := [req], errorsShown := [], thrown := some "TypeError",
            anaButtonLoading := false, anaButtonDisabled := false }
    | AnaOutcome.err msg =>
        if dom.mainCardPresent then
          { requests := [req], errorsShown := ["Error analyzing document: " ++ msg],
            thrown := none, anaButtonLoading := false, anaButtonDisabled := false }
        else
          { requests := [req], errorsShown := [], thrown := some "TypeError",
            anaButtonLoading := false, anaButtonDisabled := false }

/-- C9: for every invocation of handleDocumentAnalysis and of
handleDocumentGeneration, starting from a clickable triggering control
(not loading, enabled), the control is back to not-loading and enabled
when the handler completes — on the success branch, the failure branch,
every validation branch and even when a DOM access throws, because the
clear sits in the finally of the single request scope (and the branches
that return before showLoading never set it). -/
theorem handlers_clear_loading (gdom : GenDom) (go : GenOutcome)
    (adom : AnaDom) (ao : AnaOutcome)
    (hg1 : gdom.genButtonLoading = false) (hg2 : gdom.genButtonDisabled = false)
    (ha1 : adom.anaButtonLoading = false) (ha2 : adom.anaButtonDisabled = false) :
    ((handleDocumentGeneration gdom go).genButtonLoading = false ∧
      (handleDocumentGeneration gdom go).genButtonDisabled = false) ∧
    ((handleDocumentAnalysis adom ao).anaButtonLoading = false ∧
      (handleDocumentAnalysis adom ao).anaButtonDisabled = false) := by
  constructor
  · rw [handleDocumentGeneration]
    split
    · split <;> exact ⟨hg1, hg2⟩
    · split
      · exact ⟨hg1, hg2⟩
      · cases go with
        | ok docText =>
            by_cases hrc : gdom.resultContainerPresent = true
            · simp [hrc]
            · by_cases hmc : gdom.mainCardPresent = true <;> simp [hrc, hmc]
        | err msg =>
            by_cases hmc : gdom.mainCardPresent = true <;> simp [hmc]
  · rw [handleDocumentAnalysis]
    split
    · split <;> exact ⟨ha1, ha2⟩
    · cases ao with
      | ok summary =>
          by_cases hrc : adom.resultContainerPresent = true
          · simp [hrc]
          · by_cases hmc : adom.mainCardPresent = true <;> simp [hrc, hmc]
      | err msg =>
          by_cases hmc : adom.mainCardPresent = true <;> simp [hmc]

/-- Concrete analysis DOM for the C9 witness. -/
def anaDomPlain : AnaDom :=
  { documentText := "some contract text", documentType := "contract",
    docJurisdiction := "", docLanguage := "",
    anaButtonLoading := false, anaButtonDisabled := false,
    resultContainerPresent := true, mainCardPresent := true,
    currentJurisdiction := "us", currentLanguage := "en" }

/-- Witness for C9: a failing generation run and a successful analysis run
both finish with their buttons enabled and not loading. -/
theorem handlers_clear_loading_witness :
    (ndaDomFull.genButtonLoading = false ∧ ndaDomFull.genButtonDisabled = false ∧
      anaDomPlain.anaButtonLoading = false ∧ anaDomPlain.anaButtonDisabled = false) ∧
    ((handleDocumentGeneration ndaDomFull (GenOutcome.err "boom")).genButtonLoading = false ∧
      (handleDocumentGeneration ndaDomFull (GenOutcome.err "boom")).genButtonDisabled = false) ∧
    ((handleDocumentAnalysis anaDomPlain (AnaOutcome.ok "fine")).anaButtonLoading = false ∧
      (handleDocumentAnalysis anaDomPlain (AnaOutcome.ok "fine")).anaButtonDisabled = false) := by
  refine ⟨⟨rfl, rfl, rfl, rfl⟩, ?_⟩
  have h := handlers_clear_loading ndaDomFull (GenOutcome.err "boom")
    anaDomPlain (AnaOutcome.ok "fine") rfl rfl rfl rfl
  exact ⟨h.1, h.2⟩

/-! ## Reconnecting news stream client (setupNewsWebSocket) -/

/-- The fixed reconnect delay passed to setTimeout on close, in ms. -/
def newsReconnectDelay : Nat := 5000

/-- State of the reconnect loop: the times (ms) at which a connection open
was attempted (a new WebSocket constructed), earliest first, and the
reconnect timer scheduled by onclose, if one is pending. -/
structure NewsClientState where
  attempts : List Nat
  pendingReconnect : Option Nat
deriving DecidableEq, Repr

/-- setupNewsWebSocket at time t: constructs a new WebSocket (one more
connection open attempted) and installs the onmessage/onclose/onerror
handlers on it; the same onclose is therefore re-armed on every attempt. -/
def setupNewsWebSocket (t : Nat) (s : NewsClientState) : NewsClientState :=
  { attempts := s.attempts ++ [t], pendingReconnect := none }

/-- The onclose handler at closure time t: setTimeout schedules exactly
one fresh setupNewsWebSocket call newsReconnectDelay ms later. -/
def oncloseNews (t : Nat) (s : NewsClientState) : NewsClientState :=
  { s with pendingReconnect := some (t + newsReconnectDelay) }

/-- The event-loop timer firing: runs the scheduled setupNewsWebSocket. -/
def fireReconnect (s : NewsClientState) : NewsClientState :=
  match s.pendingReconnect with
  | some t => setupNewsWebSocket t { s with pendingReconnect := none }
  | none => s

/-- N consecutive induced closures at the given times, after an initial
setupNewsWebSocket call at t0: each closure runs onclose, and the
single-threaded event loop fires the scheduled timer before the next
closure of the newly opened connection can occur. -/
def runNewsClosures (t0 : Nat) (closures : List Nat) : NewsClientState :=
  closures.foldl (fun s c => fireReconnect (oncloseNews c s))
    (setupNewsWebSocket t0 { attempts := [], pendingReconnect := none })

theorem runNewsClosures_aux (closures : List Nat) (l : List Nat) :
    (closures.foldl (fun s c => fireReconnect (oncloseNews c s))
        { attempts := l, pendingReconnect := none }).attempts
      = l ++ closures.map (fun c => c + newsReconnectDelay) := by
  induction closures generalizing l with
  | nil => simp
  | cons c cs ih =>
      have hstep : fireReconnect (oncloseNews c { attempts := l, pendingReconnect := none })
          = { attempts := l ++ [c + newsReconnectDelay], pendingReconnect := none } := rfl
      simp only [List.foldl_cons, hstep, ih, List.map_cons]
      simp [List.append_assoc]

/-- C4: after an initial connection attempt at t0 and N consecutive
induced closures, the attempt log is exactly the initial attempt followed
by one fresh attempt per closure, each a fixed newsReconnectDelay after
its closure — so at least N opens have been attempted after N closures,
with no retry ceiling and no backoff growth, for every N. -/
theorem newsReconnect_forever (t0 : Nat) (closures : List Nat) :
    (runNewsClosures t0 closures).attempts
        = t0 :: closures.map (fun c => c + newsReconnectDelay) ∧
      (runNewsClosures t0 closures).attempts.length = closures.length + 1 ∧
      closures.length ≤ (runNewsClosures t0 closures).attempts.length := by
  have h : (runNewsClosures t0 closures).attempts
      = [t0] ++ closures.map (fun c => c + newsReconnectDelay) := by
    rw [runNewsClosures]
    exact runNewsClosures_aux closures [t0]
  refine ⟨by simpa using h, ?_, ?_⟩
  · rw [h]
    simp
  · rw [h]
    simp

end LawChat
